import Mathlib

/-!
Shallow embedding of the DISCORD_ROLES bot core: the payment confirmation
pipeline (src/src/cogs/payment.py, src/src/core/utils.py, src/src/core/models.py),
the ticket lifecycle (src/src/cogs/ticket.py), the conversation engine
(src/src/cogs/ticket.py, src/src/cogs/restart_payment.py) and the legacy
message gate (src/bot/discord_bot.py).

Timestamps are modelled as Nat, database rows as structures matching the
SQLAlchemy models, and the external world (Stripe gateway, Discord channels,
role-grant transport) as explicit parameters.
-/

/-- A gateway-side payment-intent record as stripe.PaymentIntent.retrieve
returns it: the status string, and the order_id entry of its metadata
(none when metadata carries no order_id key). -/
structure StripeIntent where
  status : String
  metadataOrderId : Option String
  deriving DecidableEq, Repr

/-- The Stripe gateway, as an association of intent references to their
current records. A reference absent from the list makes retrieve raise a
StripeError (the except branch of verify_payment_intent). -/
abbrev Gateway := List (String × StripeIntent)

/-- Resolve an intent reference at the gateway (stripe.PaymentIntent.retrieve):
none models the StripeError path for an unknown reference or failing call. -/
def retrieveIntent (g : Gateway) (payment_intent_id : String) : Option StripeIntent :=
  (g.find? (fun p => p.1 == payment_intent_id)).map Prod.snd

/-- The acceptable_statuses list of src/src/core/utils.py verify_payment_intent. -/
def acceptable_statuses : List String := ["succeeded", "processing", "requires_capture"]

/-- src/src/core/utils.py verify_payment_intent: retrieve the intent and return
the boolean verdict; a StripeError (unknown reference or failing call) yields
False, otherwise the verdict is membership of the status in acceptable_statuses. -/
def verify_payment_intent (g : Gateway) (payment_intent_id : String) : Bool :=
  match retrieveIntent g payment_intent_id with
  | none => false
  | some payment_intent => acceptable_statuses.contains payment_intent.status

/-- users table row (src/src/core/models.py User): premium is the entitlement
flag; subscription_end kept because SubscriptionCog mutates it. -/
structure UserRow where
  id : Nat
  discord_id : String
  premium : Bool
  subscription_end : Option Nat
  deriving DecidableEq, Repr

/-- tickets table row (src/src/core/models.py Ticket). -/
structure TicketRow where
  id : Nat
  channel_id : Nat
  user_id : Nat
  created_at : Nat
  closed_at : Option Nat
  deleted_at : Option Nat
  deriving DecidableEq, Repr

/-- payments table row (src/src/core/models.py Payment); the schema puts a
unique constraint on order_id and none on payment_intent_id. -/
structure PaymentRow where
  id : Nat
  user_id : Nat
  payment_intent_id : String
  order_id : String
  confirmed : Bool
  confirmation_image : String
  created_at : Nat
  deriving DecidableEq, Repr

/-- The relational store: the three tables plus the primary-key counters. -/
structure Db where
  users : List UserRow
  tickets : List TicketRow
  payments : List PaymentRow
  nextUserId : Nat
  nextTicketId : Nat
  nextPaymentId : Nat
  deriving DecidableEq, Repr

/-- Result of the role-grant transport phase of PaymentCog.confirm_payment
(lines 221-259): the guild may lack the role, and add_roles may succeed,
raise Forbidden, or raise some other error. -/
inductive GrantResult
  | roleMissing
  | granted
  | forbidden
  | addRoleError
  deriving DecidableEq, Repr

/-- User-visible outcome of one PaymentCog.confirm_payment call.
verificationFailed is the Payment Verification Failed message,
orderIdMissing the Order ID Missing message, duplicateOrder the Order ID
Invalid (already used) message, internalError the generic message of the
outer except handler, and accepted the committed path together with what
the role-grant transport did afterwards. -/
inductive ConfirmOutcome
  | verificationFailed
  | orderIdMissing
  | duplicateOrder
  | internalError
  | accepted (grant : GrantResult)
  deriving DecidableEq, Repr

/-- The dynamic value that PaymentCog.verify_payment hands to the rest of
confirm_payment. vrNone is a falsy value (None or False); vrTrue is the bare
boolean True that utils.verify_payment_intent actually returns on success
(truthy, but without a metadata attribute); vrIntent is a resolved
PaymentIntent object, which the declared return annotation
Optional of stripe.PaymentIntent promises. -/
inductive VerifyResult
  | vrNone
  | vrTrue
  | vrIntent (i : StripeIntent)
  deriving DecidableEq, Repr

/-- Python truthiness test of metadata.get, matching the if not order_id
guard of confirm_payment line 190: None and the empty string are falsy. -/
def orderFalsy : Option String → Bool
  | none => true
  | some s => s.isEmpty

/-- Number of Payment rows matching a given order_id; confirm_payment line 197
runs this query and reads it with scalar_one_or_none, which raises
MultipleResultsFound when the count exceeds one. -/
def countOrder (payments : List PaymentRow) (oid : String) : Nat :=
  (payments.filter (fun p => p.order_id == oid)).length

/-- The user.premium = True assignment of confirm_payment line 208, as the
commit persists it. -/
def setPremium (users : List UserRow) (uid : Nat) : List UserRow :=
  users.map (fun u => if u.id = uid then { u with premium := true } else u)

/-- The single commit of confirm_payment lines 208-219: it persists both the
premium flag flip and the new Payment row (confirmed True). -/
def insertPayment (db : Db) (uid : Nat) (payment_intent_id order_id image_url : String)
    (now : Nat) : Db :=
  { db with
    users := setPremium db.users uid
    payments := db.payments ++
      [⟨db.nextPaymentId, uid, payment_intent_id, order_id, true, image_url, now⟩]
    nextPaymentId := db.nextPaymentId + 1 }

/-- PaymentCog.confirm_payment lines 178-261, parametric in the dynamic value
returned by verify_payment. The falsy check (line 180) rejects vrNone; on
vrTrue the attribute read payment_intent.metadata (line 189) raises
AttributeError on the boolean, which the outer except at line 263 turns into
the generic internal error; on a real intent object the order id is read from
metadata, the Order ID Missing and duplicate-order rejections follow the
source order, and the passing path commits insertPayment before the
role-grant transport phase runs (which never touches the store). -/
def confirm_payment_core (vr : VerifyResult) (db : Db) (uid : Nat)
    (payment_intent_id image_url : String) (grant : GrantResult) (now : Nat) :
    ConfirmOutcome × Db :=
  match vr with
  | .vrNone => (.verificationFailed, db)
  | .vrTrue => (.internalError, db)
  | .vrIntent i =>
    if orderFalsy i.metadataOrderId then (.orderIdMissing, db)
    else
      let oid := i.metadataOrderId.getD ""
      match countOrder db.payments oid with
      | 0 => (.accepted grant, insertPayment db uid payment_intent_id oid image_url now)
      | 1 => (.duplicateOrder, db)
      | _ + 2 => (.internalError, db)

/-- PaymentCog.verify_payment as shipped: it forwards the bare boolean from
utils.verify_payment_intent, so the caller receives True or False. -/
def verify_payment_runtime (g : Gateway) (payment_intent_id : String) : VerifyResult :=
  if verify_payment_intent g payment_intent_id then .vrTrue else .vrNone

/-- Modelled from the declared contract of PaymentCog.verify_payment (return
annotation Optional of stripe.PaymentIntent, docstring: the PaymentIntent
object if verified, else None), which the shipped body does not honour:
verification yields the resolved intent object exactly when its status is
acceptable. -/
def verify_payment_contract (g : Gateway) (payment_intent_id : String) : VerifyResult :=
  match retrieveIntent g payment_intent_id with
  | none => .vrNone
  | some i => if acceptable_statuses.contains i.status then .vrIntent i else .vrNone

/-- PaymentCog.confirm_payment as it runs: the verification step produces the
boolean from utils.verify_payment_intent. -/
def confirm_payment (g : Gateway) (db : Db) (uid : Nat)
    (payment_intent_id image_url : String) (grant : GrantResult) (now : Nat) :
    ConfirmOutcome × Db :=
  confirm_payment_core (verify_payment_runtime g payment_intent_id)
    db uid payment_intent_id image_url grant now

/-- PaymentCog.confirm_payment under the declared contract of verify_payment:
identical to confirm_payment except that verification returns the resolved
intent object as its annotation and docstring promise. -/
def confirm_payment_contract (g : Gateway) (db : Db) (uid : Nat)
    (payment_intent_id image_url : String) (grant : GrantResult) (now : Nat) :
    ConfirmOutcome × Db :=
  confirm_payment_core (verify_payment_contract g payment_intent_id)
    db uid payment_intent_id image_url grant now

/-- Outcome of the legacy message gate of src/bot/discord_bot.py on_message
(lines 314-367) for a non-command message in a ticket channel. -/
inductive GateOutcome
  | alreadyRole
  | alreadyConfirmed
  | toCheckPayment
  | toTicketInfo
  deriving DecidableEq, Repr

/-- The legacy on_message gate: when the author is a known user, a held
premium Discord role short-circuits first (lines 331-336), then an existing
confirmed Payment row (lines 338-345); otherwise the message is routed to
check_payment when it carries an intent reference or attachment, else to
process_ticket_info. The gate never checks the premium column of the users
table and never writes the store. -/
def on_message_gate (db : Db) (discord_id : String) (hasPremiumRole : Bool)
    (contentHasIntentRef : Bool) (hasAttachment : Bool) : GateOutcome :=
  match db.users.find? (fun u => u.discord_id == discord_id) with
  | some u =>
    if hasPremiumRole then .alreadyRole
    else if db.payments.any (fun p => p.user_id == u.id && p.confirmed) then .alreadyConfirmed
    else if contentHasIntentRef || hasAttachment then .toCheckPayment
    else .toTicketInfo
  | none =>
    if contentHasIntentRef || hasAttachment then .toCheckPayment
    else .toTicketInfo

/-- World state for the ticket lifecycle: the store plus the set of reachable
Discord channel ids (guild.get_channel succeeds exactly on members) and a
counter for fresh channel ids from guild.create_text_channel. -/
structure World where
  db : Db
  channels : List Nat
  nextChannelId : Nat
  deriving DecidableEq, Repr

/-- The filter of TicketCog.get_existing_ticket: user_id match and closed_at
IS NULL; the deleted_at column is not part of the query. -/
def nonClosedFor (uid : Nat) (t : TicketRow) : Bool :=
  t.user_id == uid && t.closed_at.isNone

/-- TicketCog.get_existing_ticket: the query filters only on user_id and
closed_at IS NULL (the deleted_at column is not filtered), and is read with
scalar_one_or_none: none models the MultipleResultsFound exception when two
or more rows match, some none the empty result, some (some t) the unique row. -/
def get_existing_ticket (tickets : List TicketRow) (uid : Nat) :
    Option (Option TicketRow) :=
  match tickets.filter (nonClosedFor uid) with
  | [] => some none
  | [t] => some (some t)
  | _ => none

/-- TicketCog.get_or_create_user: look up by discord_id, lazily inserting and
committing a fresh user row (premium defaults False). -/
def get_or_create_user (db : Db) (discord_id : String) : UserRow × Db :=
  match db.users.find? (fun u => u.discord_id == discord_id) with
  | some u => (u, db)
  | none =>
    let u : UserRow := ⟨db.nextUserId, discord_id, false, none⟩
    (u, { db with users := db.users ++ [u], nextUserId := db.nextUserId + 1 })

/-- The deleted_at = utcnow assignment applied to a ticket row by id
(create_ticket line 119 and delete_ticket line 60). -/
def markDeleted (tickets : List TicketRow) (tid : Nat) (now : Nat) : List TicketRow :=
  tickets.map (fun t => if t.id = tid then { t with deleted_at := some now } else t)

/-- Outcome of one TicketCog.create_ticket call. dbError is the broad except
handler (in particular the MultipleResultsFound raised inside
get_existing_ticket), which sends the error message and leaves the store as
already committed. -/
inductive CreateOutcome
  | alreadyOpen (channel_id : Nat)
  | created (channel_id : Nat)
  | dbError
  deriving DecidableEq, Repr

/-- The channel-plus-row creation tail of create_ticket lines 123-130:
guild.create_text_channel returns a fresh channel and the new live Ticket row
is committed. -/
def createTicketTail (w : World) (uid : Nat) (now : Nat) : CreateOutcome × World :=
  let ch := w.nextChannelId
  (.created ch,
   { db := { w.db with
        tickets := w.db.tickets ++ [⟨w.db.nextTicketId, ch, uid, now, none, none⟩]
        nextTicketId := w.db.nextTicketId + 1 }
     channels := w.channels ++ [ch]
     nextChannelId := w.nextChannelId + 1 })

/-- TicketCog.create_ticket lines 100-143: get or create the user, query the
existing non-closed ticket; on a unique hit with a reachable channel answer
already-open and change nothing, on an unreachable channel soft-delete the
row and fall through to creation; on an empty result create directly; a
MultipleResultsFound aborts with the error message (the lazily created user
row, already committed, persists). -/
def create_ticket (w : World) (discord_id : String) (now : Nat) :
    CreateOutcome × World :=
  let ud := get_or_create_user w.db discord_id
  let w1 : World := { w with db := ud.2 }
  match get_existing_ticket w1.db.tickets ud.1.id with
  | none => (.dbError, w1)
  | some (some t) =>
    if w1.channels.contains t.channel_id then
      (.alreadyOpen t.channel_id, w1)
    else
      createTicketTail
        { w1 with db := { w1.db with tickets := markDeleted w1.db.tickets t.id now } }
        ud.1.id now
  | some none => createTicketTail w1 ud.1.id now

/-- Outcome of one TicketCog.delete_ticket call. noUser and noOpenTicket are
the two you-do-not-have-any-tickets replies; opError is the broad except
handler (a raising channel.delete call, or MultipleResultsFound from
get_existing_ticket). -/
inductive DeleteOutcome
  | noUser
  | noOpenTicket
  | deleted
  | opError
  deriving DecidableEq, Repr

/-- TicketCog.delete_ticket lines 34-67: find the user and their non-closed
ticket; when the backing channel is reachable it is deleted first, and an
exception from that call aborts the whole operation before deleted_at is
assigned; when the channel is unreachable only a warning is logged and
deleted_at is still set and committed. -/
def delete_ticket (w : World) (discord_id : String) (chanDeleteRaises : Bool)
    (now : Nat) : DeleteOutcome × World :=
  match w.db.users.find? (fun u => u.discord_id == discord_id) with
  | none => (.noUser, w)
  | some user =>
    match get_existing_ticket w.db.tickets user.id with
    | none => (.opError, w)
    | some none => (.noOpenTicket, w)
    | some (some t) =>
      if w.channels.contains t.channel_id then
        if chanDeleteRaises then (.opError, w)
        else
          (.deleted,
           { w with
             channels := w.channels.filter (fun c => c != t.channel_id)
             db := { w.db with tickets := markDeleted w.db.tickets t.id now } })
      else
        (.deleted, { w with db := { w.db with tickets := markDeleted w.db.tickets t.id now } })

/-- An operation of the system, for reachability: ticket creation and
deletion, and a payment confirmation (under the verify_payment contract, the
only path that can write the payments table). -/
inductive Op
  | opCreate (discord_id : String) (now : Nat)
  | opDelete (discord_id : String) (chanDeleteRaises : Bool) (now : Nat)
  | opConfirm (g : Gateway) (uid : Nat) (payment_intent_id image_url : String)
      (grant : GrantResult) (now : Nat)

/-- One step of the system, discarding the user-visible outcome. -/
def stepOp (w : World) (op : Op) : World :=
  match op with
  | .opCreate d now => (create_ticket w d now).2
  | .opDelete d f now => (delete_ticket w d f now).2
  | .opConfirm g uid pid img grant now =>
    { w with db := (confirm_payment_contract g w.db uid pid img grant now).2 }

/-- The empty deployment: fresh store, no channels. -/
def initialWorld : World :=
  ⟨⟨[], [], [], 1, 1, 1⟩, [], 1⟩

/-- Run a sequence of operations from the empty deployment. -/
def runOps (ops : List Op) : World :=
  ops.foldl stepOp initialWorld

/-- A ticket row is live when neither closed_at nor deleted_at is set. -/
def liveTicket (uid : Nat) (t : TicketRow) : Bool :=
  nonClosedFor uid t && t.deleted_at.isNone

/-- Number of live tickets a given user id owns. -/
def liveCount (tickets : List TicketRow) (uid : Nat) : Nat :=
  tickets.countP (liveTicket uid)

/-- The one-live-ticket-per-user invariant. -/
def AtMostOneLive (w : World) : Prop :=
  ∀ uid, liveCount w.db.tickets uid ≤ 1

/-- Conversation engine steps of TicketCog.start_ticket_conversation, in
source order: the five awaited inputs, the terminal done state, and retired
for an invocation that returned after a timeout or a mismatched upload. -/
inductive ConvStep
  | awaitingCurrency
  | awaitingAmount
  | awaitingOrderId
  | awaitingConfirm
  | awaitingUpload
  | convDone
  | retired
  deriving DecidableEq, Repr

/-- The transient per-attempt state: the local variables currency, amount,
order_id and payment_intent_id of one start_ticket_conversation invocation,
whose lifetime is that invocation. -/
structure PaymentRequest where
  currency : Option String
  amount : Option String
  order_id : Option String
  intentRef : Option String
  deriving DecidableEq, Repr

/-- No answer collected yet. -/
def emptyRequest : PaymentRequest := ⟨none, none, none, none⟩

/-- State of one conversation engine instance. -/
structure EngineState where
  step : ConvStep
  req : PaymentRequest
  deriving DecidableEq, Repr

/-- A fresh start_ticket_conversation invocation: first prompt is the
currency selection, no transient state. -/
def engineStart : EngineState := ⟨.awaitingCurrency, emptyRequest⟩

/-- One input event for the engine: a timeout of the pending wait, or the
qualifying input of the corresponding step (button choices and the final
upload message with its content and image). -/
inductive ConvInput
  | timeout
  | currencyChoice (c : String)
  | amountChoice (a : String)
  | orderIdEntry (oid : String)
  | confirmClick
  | uploadMsg (content : String) (imageUrl : String)
  deriving DecidableEq, Repr

/-- Python substring membership (needle in hay), used by
upload_payment_confirmation line 258 to check the intent reference occurs in
the message content. -/
def strContains (hay needle : String) : Bool :=
  (List.range (hay.data.length + 1)).any
    (fun i => needle.data.isPrefixOf (hay.data.drop i))

/-- One transition of start_ticket_conversation (lines 145-181 with the step
helpers): each awaited view either yields its value and the invocation binds
the corresponding local and proceeds, or times out, in which case
handle_timeout offers a restart and the invocation returns, dropping all its
locals (modelled by the retired step with emptyRequest). The intent reference
from create_payment_intent (gatewayRef) is bound when the order id step
completes; an upload whose content lacks the reference also ends the
invocation. Non-qualifying inputs leave the wait pending. -/
def conv_step (gatewayRef : String) (s : EngineState) (inp : ConvInput) : EngineState :=
  match s.step, inp with
  | .awaitingCurrency, .currencyChoice c =>
    ⟨.awaitingAmount, { s.req with currency := some c }⟩
  | .awaitingCurrency, .timeout => ⟨.retired, emptyRequest⟩
  | .awaitingAmount, .amountChoice a =>
    ⟨.awaitingOrderId, { s.req with amount := some a }⟩
  | .awaitingAmount, .timeout => ⟨.retired, emptyRequest⟩
  | .awaitingOrderId, .orderIdEntry oid =>
    ⟨.awaitingConfirm, { s.req with order_id := some oid, intentRef := some gatewayRef }⟩
  | .awaitingOrderId, .timeout => ⟨.retired, emptyRequest⟩
  | .awaitingConfirm, .confirmClick => ⟨.awaitingUpload, s.req⟩
  | .awaitingConfirm, .timeout => ⟨.retired, emptyRequest⟩
  | .awaitingUpload, .uploadMsg content _img =>
    if strContains content (s.req.intentRef.getD "") then ⟨.convDone, s.req⟩
    else ⟨.retired, emptyRequest⟩
  | .awaitingUpload, .timeout => ⟨.retired, emptyRequest⟩
  | _, _ => s

/-- RestartPaymentView.start_over (src/src/cogs/restart_payment.py lines
12-24): the button handler calls start_ticket_conversation afresh; the new
invocation shares nothing with any previous one. -/
def start_over (_s : EngineState) : EngineState := engineStart

/-- A whole conversation attempt over a list of input events. -/
def start_ticket_conversation (gatewayRef : String) (inputs : List ConvInput) :
    EngineState :=
  inputs.foldl (conv_step gatewayRef) engineStart

/-- The store agrees with a gateway snapshot: every Payment row was written
from an intent that the gateway still resolves, with unchanged order_id
metadata. -/
def ConsistentGateway (g : Gateway) (db : Db) : Prop :=
  ∀ p ∈ db.payments, ∃ i, retrieveIntent g p.payment_intent_id = some i ∧
    i.metadataOrderId = some p.order_id

/-- No two Payment rows share an order_id (the unique constraint the schema
declares on the order_id column). -/
def UniqueOrders (db : Db) : Prop :=
  db.payments.Pairwise (fun a b => a.order_id ≠ b.order_id)

/-- No two Payment rows share a payment_intent_id (the invariant the spec
asserts; the schema declares no constraint on this column). -/
def UniqueIntentRefs (db : Db) : Prop :=
  db.payments.Pairwise (fun a b => a.payment_intent_id ≠ b.payment_intent_id)

/-! Concrete stores, gateways and operation sequences used by the closed
theorems and witnesses below. -/

/-- One registered user (internal id 1), not yet entitled, no payments. -/
def dbOneUser : Db := ⟨[⟨1, "u", false, none⟩], [], [], 2, 1, 1⟩

/-- One user, one committed confirmed Payment row with order ORD1. -/
def dbWithOrd1 : Db :=
  ⟨[⟨1, "u", false, none⟩], [], [⟨1, 1, "pi_old", "ORD1", true, "img0", 0⟩], 2, 1, 2⟩

/-- One user whose premium flag is already true, with the confirmed Payment
row that made it so. -/
def dbEntitled : Db :=
  ⟨[⟨1, "u", true, none⟩], [], [⟨1, 1, "pi_old", "ORD1", true, "img0", 0⟩], 2, 1, 2⟩

/-- One user whose premium flag is true but who has no Payment row at all. -/
def dbEntitledNoRow : Db := ⟨[⟨1, "u", true, none⟩], [], [], 2, 1, 1⟩

/-- Gateway resolving pi_dup to a succeeded intent whose order id ORD1 is
already taken in dbWithOrd1. -/
def gDup : Gateway := [("pi_dup", ⟨"succeeded", some "ORD1"⟩)]

/-- Gateway resolving pi_ok to a succeeded intent whose metadata carries no
order id. -/
def gNoOrder : Gateway := [("pi_ok", ⟨"succeeded", none⟩)]

/-- Gateway resolving pi_p to an intent still in processing status. -/
def gProcessing : Gateway := [("pi_p", ⟨"processing", some "OP"⟩)]

/-- Gateway resolving pi_new to a succeeded intent with fresh order ORD2. -/
def gOrd2 : Gateway := [("pi_new", ⟨"succeeded", some "ORD2"⟩)]

/-- Gateway snapshot resolving pi_x with order O1. -/
def gX1 : Gateway := [("pi_x", ⟨"succeeded", some "O1"⟩)]

/-- Later gateway snapshot in which the metadata of pi_x carries order O2. -/
def gX2 : Gateway := [("pi_x", ⟨"succeeded", some "O2"⟩)]

/-- Store after a first successful confirmation of pi_x under gX1. -/
def dbAfterX1 : Db := (confirm_payment_contract gX1 dbOneUser 1 "pi_x" "i1" .granted 0).2

/-- Create a ticket, delete it, create a second one: after this sequence the
user owns one live ticket (id 2, channel 2) and one soft-deleted row, both
with closed_at null. -/
def opsBrick : List Op :=
  [.opCreate "u" 0, .opDelete "u" false 1, .opCreate "u" 2]

/-- World holding exactly one live ticket (channel 1) for user u. -/
def wOne : World := runOps [.opCreate "u" 0]

/-- Claim C1. At a store already holding a confirmed Payment row with order
ORD1, a confirmation attempt whose intent resolves to order ORD1 does insert
no new Payment row and leaves the premium flag unchanged, but the outcome the
code produces is the generic internal error (the boolean returned by
verify_payment makes the metadata read raise AttributeError before the
duplicate-order check at line 197 can run), not the DuplicateOrder rejection;
under the declared contract of verify_payment the same attempt is rejected
with DuplicateOrder as the claim states. -/
theorem C1_duplicate_order_attempt :
    confirm_payment gDup dbWithOrd1 1 "pi_dup" "img" .granted 1 =
      (.internalError, dbWithOrd1) ∧
    confirm_payment_contract gDup dbWithOrd1 1 "pi_dup" "img" .granted 1 =
      (.duplicateOrder, dbWithOrd1) :=
  ⟨rfl, rfl⟩

/-- Claim C4. The unknown-reference rejection works as claimed, but the
OrderIdMissing outcome is unreachable: on a verified intent whose gateway
record has no order id, the shipped code answers with the generic internal
error (AttributeError on the boolean verification result), while the declared
contract of verify_payment yields OrderIdMissing exactly there. -/
theorem C4_gateway_resolution_outcomes :
    verify_payment_intent gNoOrder "pi_ok" = true ∧
    confirm_payment gNoOrder dbOneUser 1 "pi_ok" "img" .granted 0 =
      (.internalError, dbOneUser) ∧
    confirm_payment_contract gNoOrder dbOneUser 1 "pi_ok" "img" .granted 0 =
      (.orderIdMissing, dbOneUser) ∧
    confirm_payment gNoOrder dbOneUser 1 "pi_unknown" "img" .granted 0 =
      (.verificationFailed, dbOneUser) :=
  ⟨rfl, rfl, rfl, rfl⟩

/-- Claim C10. The boolean verdict of verify_payment_intent is True exactly
when the reference resolves and its status lies in acceptable_statuses (so a
processing intent passes verification), but the shipped confirmation flow
then fails with the internal error and creates no Payment row; only under the
declared contract of verify_payment does the processing intent yield a
confirmed Payment row. -/
theorem C10_verification_status_gating :
    (∀ g pid, verify_payment_intent g pid =
      ((retrieveIntent g pid).map
        (fun i => acceptable_statuses.contains i.status)).getD false) ∧
    verify_payment_intent gProcessing "pi_p" = true ∧
    confirm_payment gProcessing dbOneUser 1 "pi_p" "img" .granted 0 =
      (.internalError, dbOneUser) ∧
    (confirm_payment_contract gProcessing dbOneUser 1 "pi_p" "img" .granted 0).1 =
      .accepted .granted ∧
    (confirm_payment_contract gProcessing dbOneUser 1 "pi_p" "img" .granted 0).2.payments =
      [⟨1, 1, "pi_p", "OP", true, "img", 0⟩] := by
  refine ⟨?_, rfl, rfl, rfl, rfl⟩
  intro g pid
  unfold verify_payment_intent
  cases retrieveIntent g pid <;> rfl

/-- Claim C2, counterexample. A user whose premium flag is already true is
not rejected with any already-entitled no-op: under the declared verification
contract the attempt is accepted and a second Payment row is inserted for
that user; and even the legacy message gate routes an entitled-flag user who
does not hold the Discord role and has no confirmed row straight to
check_payment instead of rejecting. -/
theorem C2_entitled_user_not_rejected :
    dbEntitled.users.map (fun u => u.premium) = [true] ∧
    (confirm_payment_contract gOrd2 dbEntitled 1 "pi_new" "img" .granted 1).1 =
      .accepted .granted ∧
    ((confirm_payment_contract gOrd2 dbEntitled 1 "pi_new" "img" .granted 1).2.payments.filter
      (fun p => p.user_id == 1)).length = 2 ∧
    on_message_gate dbEntitledNoRow "u" false true true = .toCheckPayment :=
  ⟨rfl, rfl, rfl, rfl⟩

/-- Claim C5, counterexample. The transaction that commits the new Payment
row is not free of other mutations: it also flips the confirming user
premium flag from false to true. -/
theorem C5_commit_flips_premium :
    dbOneUser.users.map (fun u => u.premium) = [false] ∧
    (confirm_payment_contract gOrd2 dbOneUser 1 "pi_new" "img" .granted 1).1 =
      .accepted .granted ∧
    (confirm_payment_contract gOrd2 dbOneUser 1 "pi_new" "img" .granted 1).2.users.map
      (fun u => u.premium) = [true] :=
  ⟨rfl, rfl, rfl⟩

/-- Claim C7, counterexample. Nothing enforces uniqueness of
payment_intent_id: confirming pi_x twice, against two gateway snapshots whose
metadata carries different order ids, inserts two distinct Payment rows
sharing payment_intent_id pi_x. -/
theorem C7_intent_id_not_unique :
    ((confirm_payment_contract gX2 dbAfterX1 1 "pi_x" "i2" .granted 1).2.payments.map
      (fun p => p.id)) = [1, 2] ∧
    ((confirm_payment_contract gX2 dbAfterX1 1 "pi_x" "i2" .granted 1).2.payments.map
      (fun p => p.payment_intent_id)) = ["pi_x", "pi_x"] :=
  ⟨rfl, rfl⟩

/-- Claim C9, counterexample. When the backing channel is reachable but its
deletion raises, delete_ticket aborts with the error reply and the ticket
deleted_at column is never set, contradicting the best-effort description. -/
theorem C9_channel_delete_failure_fatal :
    delete_ticket wOne "u" true 1 = (.opError, wOne) ∧
    wOne.db.tickets.map (fun t => t.deleted_at) = [none] ∧
    (delete_ticket wOne "u" true 1).2.db.tickets.map (fun t => t.deleted_at) = [none] := by
  refine ⟨by decide, by decide, by decide⟩

/-- Helper: the user-visible outcome of the confirm flow depends only on the
verification value, the payments table and the transport result, never on the
users or tickets tables (in particular never on any premium flag). -/
theorem confirm_core_fst_congr (vr : VerifyResult) (db1 db2 : Db) (uid1 uid2 : Nat)
    (pid1 pid2 img1 img2 : String) (grant : GrantResult) (now1 now2 : Nat)
    (h : db1.payments = db2.payments) :
    (confirm_payment_core vr db1 uid1 pid1 img1 grant now1).1 =
    (confirm_payment_core vr db2 uid2 pid2 img2 grant now2).1 := by
  cases vr with
  | vrNone => rfl
  | vrTrue => rfl
  | vrIntent i =>
    simp only [confirm_payment_core]
    cases ho : orderFalsy i.metadataOrderId with
    | true => rfl
    | false =>
      simp only [Bool.false_eq_true, if_false, h]
      cases hc : countOrder db2.payments (i.metadataOrderId.getD "") with
      | zero => rfl
      | succ n => cases n with
        | zero => rfl
        | succ m => rfl

/-- Claim C8. A step timeout always retires the conversation attempt and
discards every transient answer; the restart button starts a fresh attempt at
the currency step with empty state; and a concrete run that answered currency
and amount before timing out, once restarted with new answers, completes with
exactly the new answers and the new intent reference. -/
theorem C8_timeout_discards_state :
    (∀ (gr : String) (s : EngineState),
      (s.step = .awaitingCurrency ∨ s.step = .awaitingAmount ∨ s.step = .awaitingOrderId ∨
       s.step = .awaitingConfirm ∨ s.step = .awaitingUpload) →
      conv_step gr s .timeout = ⟨.retired, emptyRequest⟩) ∧
    (∀ s, start_over s = engineStart) ∧
    start_ticket_conversation "pi_1"
      [.currencyChoice "USD", .amountChoice "59.95", .timeout] =
      ⟨.retired, emptyRequest⟩ ∧
    start_over (start_ticket_conversation "pi_1"
      [.currencyChoice "USD", .amountChoice "59.95", .timeout]) = engineStart ∧
    start_ticket_conversation "pi_2"
      [.currencyChoice "EUR", .amountChoice "168.95", .orderIdEntry "ORD9",
       .confirmClick, .uploadMsg "here pi_2 proof" "imgurl"] =
      ⟨.convDone, ⟨some "EUR", some "168.95", some "ORD9", some "pi_2"⟩⟩ := by
  refine ⟨?_, fun s => rfl, by decide, rfl, by decide⟩
  rintro gr ⟨st, rq⟩ h
  simp only at h
  cases st <;> first
    | rfl
    | (rcases h with h | h | h | h | h <;> exact absurd h (by decide))

/-- Claim C8, witness: a timed-out amount step with a currency already
collected ends retired with no transient state. -/
theorem C8_witness :
    conv_step "pi_9" ⟨.awaitingAmount, ⟨some "USD", none, none, none⟩⟩ .timeout =
      ⟨.retired, emptyRequest⟩ :=
  C8_timeout_discards_state.1 "pi_9" ⟨.awaitingAmount, ⟨some "USD", none, none, none⟩⟩
    (Or.inr (Or.inl rfl))

/-- Claim C2, amended: the confirmation flow contains no entitlement-flag
check at all: with the same gateway value, payments table and transport
result, its outcome is identical whatever the users table (hence whatever the
premium flag) holds, in the shipped pipeline and under the verification
contract alike; the only already-entitled style no-op lives in the legacy
message gate, which short-circuits on possession of the premium Discord role
(or, failing that, on an existing confirmed Payment row), not on the flag. -/
theorem C2_amended_no_entitlement_check :
    (∀ (g : Gateway) (db1 db2 : Db) (uid1 uid2 : Nat) (pid img1 img2 : String)
       (grant : GrantResult) (now1 now2 : Nat), db1.payments = db2.payments →
      (confirm_payment g db1 uid1 pid img1 grant now1).1 =
        (confirm_payment g db2 uid2 pid img2 grant now2).1 ∧
      (confirm_payment_contract g db1 uid1 pid img1 grant now1).1 =
        (confirm_payment_contract g db2 uid2 pid img2 grant now2).1) ∧
    (∀ (db : Db) (d : String) (u : UserRow) (hasPi hasAtt : Bool),
      db.users.find? (fun x => x.discord_id == d) = some u →
      on_message_gate db d true hasPi hasAtt = .alreadyRole) := by
  constructor
  · intro g db1 db2 uid1 uid2 pid img1 img2 grant now1 now2 h
    exact ⟨confirm_core_fst_congr _ db1 db2 uid1 uid2 pid pid img1 img2 grant now1 now2 h,
           confirm_core_fst_congr _ db1 db2 uid1 uid2 pid pid img1 img2 grant now1 now2 h⟩
  · intro db d u hasPi hasAtt hf
    simp [on_message_gate, hf]

/-- Claim C2, witness for the amended statement: the entitled store dbEntitled
and the unentitled store dbWithOrd1 share a payments table, so the confirm
outcome is the same on both; and in the legacy gate a role holder is
short-circuited. -/
theorem C2_amended_witness :
    ((confirm_payment gOrd2 dbEntitled 1 "pi_new" "img" .granted 1).1 =
      (confirm_payment gOrd2 dbWithOrd1 1 "pi_new" "img" .granted 1).1 ∧
     (confirm_payment_contract gOrd2 dbEntitled 1 "pi_new" "img" .granted 1).1 =
      (confirm_payment_contract gOrd2 dbWithOrd1 1 "pi_new" "img" .granted 1).1) ∧
    on_message_gate dbEntitled "u" true true true = .alreadyRole :=
  ⟨C2_amended_no_entitlement_check.1 gOrd2 dbEntitled dbWithOrd1 1 1 "pi_new" "img" "img"
     .granted 1 1 rfl,
   C2_amended_no_entitlement_check.2 dbEntitled "u" ⟨1, "u", true, none⟩ true true rfl⟩

/-- Helper: a confirm call under the verification contract either leaves the
store untouched and is not accepted, or its intent resolved with a non-empty
order id that no Payment row held yet, and the call committed exactly
insertPayment with the accepted outcome. -/
theorem confirm_contract_cases (g : Gateway) (db : Db) (uid : Nat)
    (pid img : String) (grant : GrantResult) (now : Nat) :
    ((confirm_payment_contract g db uid pid img grant now).2 = db ∧
      ∀ gres, (confirm_payment_contract g db uid pid img grant now).1 ≠ .accepted gres) ∨
    (∃ i oid, verify_payment_contract g pid = .vrIntent i ∧
      i.metadataOrderId = some oid ∧ oid.isEmpty = false ∧
      countOrder db.payments oid = 0 ∧
      confirm_payment_contract g db uid pid img grant now =
        (.accepted grant, insertPayment db uid pid oid img now)) := by
  have hmain : confirm_payment_contract g db uid pid img grant now =
      confirm_payment_core (verify_payment_contract g pid) db uid pid img grant now := rfl
  cases hvr : verify_payment_contract g pid with
  | vrNone =>
    refine Or.inl ⟨?_, fun gres h => ?_⟩
    · rw [hmain, hvr]
      rfl
    · rw [hmain, hvr] at h
      simp [confirm_payment_core] at h
  | vrTrue =>
    refine Or.inl ⟨?_, fun gres h => ?_⟩
    · rw [hmain, hvr]
      rfl
    · rw [hmain, hvr] at h
      simp [confirm_payment_core] at h
  | vrIntent i =>
    cases hm : i.metadataOrderId with
    | none =>
      refine Or.inl ⟨?_, fun gres h => ?_⟩
      · rw [hmain, hvr]
        simp [confirm_payment_core, orderFalsy, hm]
      · rw [hmain, hvr] at h
        simp [confirm_payment_core, orderFalsy, hm] at h
    | some s =>
      cases he : s.isEmpty with
      | true =>
        refine Or.inl ⟨?_, fun gres h => ?_⟩
        · rw [hmain, hvr]
          simp [confirm_payment_core, orderFalsy, hm, he]
        · rw [hmain, hvr] at h
          simp [confirm_payment_core, orderFalsy, hm, he] at h
      | false =>
        cases hc : countOrder db.payments s with
        | zero =>
          refine Or.inr ⟨i, s, rfl, hm, he, hc, ?_⟩
          rw [hmain, hvr]
          simp [confirm_payment_core, orderFalsy, hm, he, hc]
        | succ n =>
          cases n with
          | zero =>
            refine Or.inl ⟨?_, fun gres h => ?_⟩
            · rw [hmain, hvr]
              simp [confirm_payment_core, orderFalsy, hm, he, hc]
            · rw [hmain, hvr] at h
              simp [confirm_payment_core, orderFalsy, hm, he, hc] at h
          | succ m =>
            refine Or.inl ⟨?_, fun gres h => ?_⟩
            · rw [hmain, hvr]
              simp [confirm_payment_core, orderFalsy, hm, he, hc]
            · rw [hmain, hvr] at h
              simp [confirm_payment_core, orderFalsy, hm, he, hc] at h

/-- Claim C5, amended: the committing transaction performs exactly two
mutations, the Payment insert (confirmed true, fresh primary key) and the
flip of the confirming user premium flag; the tickets table, the other
counters, every other user row and every other payment row are unchanged. -/
theorem C5_amended_commit_frame (g : Gateway) (db : Db) (uid : Nat)
    (pid img : String) (grant : GrantResult) (now : Nat) (gres : GrantResult)
    (h : (confirm_payment_contract g db uid pid img grant now).1 = .accepted gres) :
    ∃ oid,
      (confirm_payment_contract g db uid pid img grant now).2 =
        insertPayment db uid pid oid img now ∧
      (confirm_payment_contract g db uid pid img grant now).2.tickets = db.tickets ∧
      (confirm_payment_contract g db uid pid img grant now).2.nextTicketId =
        db.nextTicketId ∧
      (confirm_payment_contract g db uid pid img grant now).2.nextUserId = db.nextUserId ∧
      (confirm_payment_contract g db uid pid img grant now).2.payments =
        db.payments ++ [⟨db.nextPaymentId, uid, pid, oid, true, img, now⟩] ∧
      (confirm_payment_contract g db uid pid img grant now).2.users =
        db.users.map (fun u => if u.id = uid then { u with premium := true } else u) ∧
      ∀ u ∈ db.users, u.id ≠ uid →
        u ∈ (confirm_payment_contract g db uid pid img grant now).2.users := by
  rcases confirm_contract_cases g db uid pid img grant now with
    ⟨_, hno⟩ | ⟨i, oid, _, _, _, _, heq⟩
  · exact absurd h (hno gres)
  · refine ⟨oid, by rw [heq], by rw [heq]; rfl, by rw [heq]; rfl, by rw [heq]; rfl,
      by rw [heq]; rfl, by rw [heq]; rfl, ?_⟩
    intro u hu hne
    rw [heq]
    show u ∈ setPremium db.users uid
    unfold setPremium
    have hmm := List.mem_map_of_mem
      (fun u => if u.id = uid then { u with premium := true } else u) hu
    simpa [if_neg hne] using hmm

/-- Claim C5, witness for the amended statement, at the concrete accepted
confirmation of pi_new against the one-user store. -/
theorem C5_amended_witness :
    ∃ oid,
      (confirm_payment_contract gOrd2 dbOneUser 1 "pi_new" "img" .granted 1).2 =
        insertPayment dbOneUser 1 "pi_new" oid "img" 1 ∧
      (confirm_payment_contract gOrd2 dbOneUser 1 "pi_new" "img" .granted 1).2.tickets =
        dbOneUser.tickets ∧
      (confirm_payment_contract gOrd2 dbOneUser 1 "pi_new" "img" .granted 1).2.nextTicketId =
        dbOneUser.nextTicketId ∧
      (confirm_payment_contract gOrd2 dbOneUser 1 "pi_new" "img" .granted 1).2.nextUserId =
        dbOneUser.nextUserId ∧
      (confirm_payment_contract gOrd2 dbOneUser 1 "pi_new" "img" .granted 1).2.payments =
        dbOneUser.payments ++
          [⟨dbOneUser.nextPaymentId, 1, "pi_new", oid, true, "img", 1⟩] ∧
      (confirm_payment_contract gOrd2 dbOneUser 1 "pi_new" "img" .granted 1).2.users =
        dbOneUser.users.map (fun u => if u.id = 1 then { u with premium := true } else u) ∧
      ∀ u ∈ dbOneUser.users, u.id ≠ 1 →
        u ∈ (confirm_payment_contract gOrd2 dbOneUser 1 "pi_new" "img" .granted 1).2.users :=
  C5_amended_commit_frame gOrd2 dbOneUser 1 "pi_new" "img" .granted 1 .granted rfl

/-- Claim C6. Once the verification step resolves the intent and the order id
is present, fresh and non-empty, the Payment row is committed together with
the premium flip, and the role-grant transport phase cannot change the store:
whatever the transport does (role missing, success, Forbidden, other error)
the call returns accepted carrying that transport result and the committed
store, the confirming user premium flag is true, the confirmed Payment row is
present, and in particular the store after a Forbidden transport failure
equals the store after a successful grant. -/
theorem C6_transport_failure_keeps_commit (g : Gateway) (db : Db) (uid : Nat)
    (pid img : String) (now : Nat) (i : StripeIntent) (oid : String)
    (hv : verify_payment_contract g pid = .vrIntent i)
    (hm : i.metadataOrderId = some oid) (hne : oid.isEmpty = false)
    (hd : countOrder db.payments oid = 0) :
    ∀ grant : GrantResult,
      confirm_payment_contract g db uid pid img grant now =
        (.accepted grant, insertPayment db uid pid oid img now) ∧
      (∀ u ∈ (insertPayment db uid pid oid img now).users, u.id = uid → u.premium = true) ∧
      (⟨db.nextPaymentId, uid, pid, oid, true, img, now⟩ : PaymentRow) ∈
        (insertPayment db uid pid oid img now).payments ∧
      (confirm_payment_contract g db uid pid img .forbidden now).2 =
        (confirm_payment_contract g db uid pid img .granted now).2 := by
  have key : ∀ gr : GrantResult,
      confirm_payment_contract g db uid pid img gr now =
        (.accepted gr, insertPayment db uid pid oid img now) := by
    intro gr
    have hmain : confirm_payment_contract g db uid pid img gr now =
        confirm_payment_core (verify_payment_contract g pid) db uid pid img gr now := rfl
    rw [hmain, hv]
    simp [confirm_payment_core, orderFalsy, hm, hne, hd]
  intro grant
  refine ⟨key grant, ?_, ?_, by rw [key .forbidden, key .granted]⟩
  · intro u hu he
    obtain ⟨v, hv', hfv⟩ := List.mem_map.1 hu
    by_cases hid : v.id = uid
    · rw [← hfv, if_pos hid]
    · rw [← hfv, if_neg hid] at he ⊢
      exact absurd he hid
  · show _ ∈ db.payments ++ [_]
    exact List.mem_append.2 (Or.inr (List.mem_singleton_self _))

/-- Claim C6, witness: the concrete accepted confirmation of pi_new with a
Forbidden role grant keeps the committed store. -/
theorem C6_witness :
    confirm_payment_contract gOrd2 dbOneUser 1 "pi_new" "img" .forbidden 1 =
      (.accepted .forbidden, insertPayment dbOneUser 1 "pi_new" "ORD2" "img" 1) ∧
    (∀ u ∈ (insertPayment dbOneUser 1 "pi_new" "ORD2" "img" 1).users,
      u.id = 1 → u.premium = true) ∧
    (⟨dbOneUser.nextPaymentId, 1, "pi_new", "ORD2", true, "img", 1⟩ : PaymentRow) ∈
      (insertPayment dbOneUser 1 "pi_new" "ORD2" "img" 1).payments ∧
    (confirm_payment_contract gOrd2 dbOneUser 1 "pi_new" "img" .forbidden 1).2 =
      (confirm_payment_contract gOrd2 dbOneUser 1 "pi_new" "img" .granted 1).2 :=
  (C6_transport_failure_keeps_commit gOrd2 dbOneUser 1 "pi_new" "img" 1
    ⟨"succeeded", some "ORD2"⟩ "ORD2" rfl rfl rfl rfl) .forbidden

/-- Helper: inversion of a successful contract verification. -/
theorem verify_contract_intent_inv (g : Gateway) (pid : String) (i : StripeIntent)
    (h : verify_payment_contract g pid = .vrIntent i) :
    retrieveIntent g pid = some i ∧ acceptable_statuses.contains i.status = true := by
  unfold verify_payment_contract at h
  cases hrr : retrieveIntent g pid with
  | none =>
    rw [hrr] at h
    simp at h
  | some j =>
    rw [hrr] at h
    cases hss : acceptable_statuses.contains j.status with
    | false =>
      simp at hss
      simp [hss] at h
    | true =>
      simp at hss
      simp [hss] at h
      subst h
      exact ⟨rfl, by simpa using hss⟩

/-- Helper: when every Payment row still resolves at the gateway to its own
order id and order ids are pairwise distinct, intent references are pairwise
distinct too. -/
theorem uniq_intent_of_consistent (g : Gateway) (db : Db)
    (hc : ConsistentGateway g db) (hu : UniqueOrders db) : UniqueIntentRefs db := by
  refine hu.imp_of_mem ?_
  intro a b ha hb hne hpe
  obtain ⟨ia, hra, hma⟩ := hc a ha
  obtain ⟨ib, hrb, hmb⟩ := hc b hb
  rw [hpe, hrb] at hra
  injection hra with hib
  rw [hib] at hmb
  rw [hma] at hmb
  injection hmb with horder
  exact hne horder

/-- Claim C7, amended: payment_intent_id uniqueness is not enforced by any
constraint or check, but it does follow from order-id uniqueness whenever the
gateway still resolves every recorded intent reference to its recorded order
id: under that consistency hypothesis a confirm call preserves consistency,
order-id uniqueness and hence pairwise distinct payment_intent_id values. -/
theorem C7_amended_conditional_uniqueness (g : Gateway) (db : Db) (uid : Nat)
    (pid img : String) (grant : GrantResult) (now : Nat)
    (hc : ConsistentGateway g db) (hu : UniqueOrders db) :
    ConsistentGateway g (confirm_payment_contract g db uid pid img grant now).2 ∧
    UniqueOrders (confirm_payment_contract g db uid pid img grant now).2 ∧
    UniqueIntentRefs (confirm_payment_contract g db uid pid img grant now).2 := by
  rcases confirm_contract_cases g db uid pid img grant now with
    ⟨heq, _⟩ | ⟨i, oid, hv, hm, hne, hcnt, heq⟩
  · rw [heq]
    exact ⟨hc, hu, uniq_intent_of_consistent g db hc hu⟩
  · obtain ⟨hri, _⟩ := verify_contract_intent_inv g pid i hv
    have hfresh : ∀ a ∈ db.payments, a.order_id ≠ oid := by
      intro a ha hEq
      have hnil : db.payments.filter (fun p => p.order_id == oid) = [] :=
        List.length_eq_zero.1 hcnt
      have := List.filter_eq_nil_iff.1 hnil a ha
      simp [hEq] at this
    rw [heq]
    have hcons : ConsistentGateway g (insertPayment db uid pid oid img now) := by
      intro p hp
      rcases List.mem_append.1 hp with hp | hp
      · exact hc p hp
      · rw [List.mem_singleton.1 hp]
        exact ⟨i, hri, by rw [hm]⟩
    have huniq : UniqueOrders (insertPayment db uid pid oid img now) := by
      show (db.payments ++ [_]).Pairwise _
      rw [List.pairwise_append]
      refine ⟨hu, by simp, ?_⟩
      intro a ha b hb
      rw [List.mem_singleton.1 hb]
      exact hfresh a ha
    exact ⟨hcons, huniq,
      uniq_intent_of_consistent g (insertPayment db uid pid oid img now) hcons huniq⟩

/-- Claim C7, witness for the amended statement: starting from the empty
payments table (trivially consistent, trivially unique) the confirmation of
pi_x preserves all three properties. -/
theorem C7_amended_witness :
    ConsistentGateway gX1 (confirm_payment_contract gX1 dbOneUser 1 "pi_x" "i1" .granted 0).2 ∧
    UniqueOrders (confirm_payment_contract gX1 dbOneUser 1 "pi_x" "i1" .granted 0).2 ∧
    UniqueIntentRefs (confirm_payment_contract gX1 dbOneUser 1 "pi_x" "i1" .granted 0).2 :=
  C7_amended_conditional_uniqueness gX1 dbOneUser 1 "pi_x" "i1" .granted 0
    (fun p hp => absurd hp (by simp [dbOneUser]))
    (by simp [UniqueOrders, dbOneUser])

/-- Claim C9, amended: delete_ticket answers the two not-found replies (and
changes nothing) when the user is unknown or has no non-closed ticket; when
the backing channel is unreachable the removal failure is only logged and
deleted_at is still set; but when the channel removal call itself raises, the
operation aborts with the error reply before deleted_at is set, so channel
removal is not best-effort on that path. -/
theorem C9_amended_delete_semantics (w : World) (d : String) (now : Nat) :
    (w.db.users.find? (fun u => u.discord_id == d) = none →
      ∀ f, delete_ticket w d f now = (.noUser, w)) ∧
    (∀ user, w.db.users.find? (fun u => u.discord_id == d) = some user →
      get_existing_ticket w.db.tickets user.id = some none →
      ∀ f, delete_ticket w d f now = (.noOpenTicket, w)) ∧
    (∀ user t, w.db.users.find? (fun u => u.discord_id == d) = some user →
      get_existing_ticket w.db.tickets user.id = some (some t) →
      w.channels.contains t.channel_id = false →
      ∀ f, delete_ticket w d f now =
        (.deleted,
         { w with db := { w.db with tickets := markDeleted w.db.tickets t.id now } })) ∧
    (∀ user t, w.db.users.find? (fun u => u.discord_id == d) = some user →
      get_existing_ticket w.db.tickets user.id = some (some t) →
      w.channels.contains t.channel_id = true →
      delete_ticket w d true now = (.opError, w)) ∧
    (∀ user t, w.db.users.find? (fun u => u.discord_id == d) = some user →
      get_existing_ticket w.db.tickets user.id = some (some t) →
      w.channels.contains t.channel_id = true →
      delete_ticket w d false now =
        (.deleted,
         { w with
           channels := w.channels.filter (fun c => c != t.channel_id)
           db := { w.db with tickets := markDeleted w.db.tickets t.id now } })) := by
  refine ⟨?_, ?_, ?_, ?_, ?_⟩
  · intro hf f
    unfold delete_ticket
    rw [hf]
  · intro user hf hg f
    unfold delete_ticket
    rw [hf]
    simp only [hg]
  · intro user t hf hg hch f
    unfold delete_ticket
    rw [hf]
    simp only [hg, hch, Bool.false_eq_true, if_false]
  · intro user t hf hg hch
    unfold delete_ticket
    rw [hf]
    simp only [hg, hch, if_true]
  · intro user t hf hg hch
    unfold delete_ticket
    rw [hf]
    simp only [hg, hch, if_true, Bool.false_eq_true, if_false]

/-- Claim C9, witness for the amended statement: in the one-live-ticket world
a raising channel removal aborts without setting deleted_at. -/
theorem C9_amended_witness :
    delete_ticket wOne "u" true 1 = (.opError, wOne) :=
  (C9_amended_delete_semantics wOne "u" 1).2.2.2.1 ⟨1, "u", false, none⟩
    ⟨1, 1, 1, 0, none, none⟩ (by decide) (by decide) (by decide)

/-- Helper: a live ticket also matches the non-closed query filter. -/
theorem live_imp_nonClosed {uid : Nat} {t : TicketRow} (h : liveTicket uid t = true) :
    nonClosedFor uid t = true := by
  unfold liveTicket at h
  rw [Bool.and_eq_true] at h
  exact h.1

/-- Helper: soft-deleting a row never increases the live count. -/
theorem liveCount_mark_le (l : List TicketRow) (tid now uid : Nat) :
    liveCount (markDeleted l tid now) uid ≤ liveCount l uid := by
  unfold liveCount markDeleted
  rw [List.countP_map]
  apply List.countP_mono_left
  intro t _ hcomp
  by_cases hid : t.id = tid
  · exfalso
    simp [Function.comp, hid, liveTicket, nonClosedFor] at hcomp
  · simpa [Function.comp, hid] using hcomp

/-- Helper: live count over an extended ticket table. -/
theorem liveCount_append (l : List TicketRow) (t : TicketRow) (uid : Nat) :
    liveCount (l ++ [t]) uid =
      liveCount l uid + (if liveTicket uid t then 1 else 0) := by
  unfold liveCount
  rw [List.countP_append, List.countP_singleton]

/-- Helper: no live rows for a user whose non-closed query is empty. -/
theorem liveCount_zero_of_no_nonClosed (l : List TicketRow) (uid : Nat)
    (h : l.filter (nonClosedFor uid) = []) : liveCount l uid = 0 := by
  unfold liveCount
  rw [List.countP_eq_zero]
  intro a ha hlive
  have hmem : a ∈ l.filter (nonClosedFor uid) :=
    List.mem_filter.2 ⟨ha, live_imp_nonClosed hlive⟩
  rw [h] at hmem
  cases hmem

/-- Helper: soft-deleting the unique non-closed row of a user leaves that
user with no live row. -/
theorem liveCount_mark_unique (l : List TicketRow) (t : TicketRow) (now uid : Nat)
    (h : l.filter (nonClosedFor uid) = [t]) :
    liveCount (markDeleted l t.id now) uid = 0 := by
  unfold liveCount markDeleted
  rw [List.countP_map, List.countP_eq_zero]
  intro a ha hlive
  by_cases hid : a.id = t.id
  · simp [Function.comp, hid, liveTicket, nonClosedFor] at hlive
  · simp only [Function.comp, if_neg hid] at hlive
    have hmem : a ∈ l.filter (nonClosedFor uid) :=
      List.mem_filter.2 ⟨ha, live_imp_nonClosed hlive⟩
    rw [h] at hmem
    exact hid (by rw [List.mem_singleton.1 hmem])

/-- Helper: inversion of an empty get_existing_ticket answer. -/
theorem get_existing_some_none (tickets : List TicketRow) (uid : Nat)
    (h : get_existing_ticket tickets uid = some none) :
    tickets.filter (nonClosedFor uid) = [] := by
  unfold get_existing_ticket at h
  cases hf : tickets.filter (nonClosedFor uid) with
  | nil => rfl
  | cons a l =>
    cases l with
    | nil => rw [hf] at h; simp at h
    | cons b m => rw [hf] at h; simp at h

/-- Helper: inversion of a unique get_existing_ticket answer. -/
theorem get_existing_some_some (tickets : List TicketRow) (uid : Nat) (t : TicketRow)
    (h : get_existing_ticket tickets uid = some (some t)) :
    tickets.filter (nonClosedFor uid) = [t] := by
  unfold get_existing_ticket at h
  cases hf : tickets.filter (nonClosedFor uid) with
  | nil => rw [hf] at h; simp at h
  | cons a l =>
    cases l with
    | nil =>
      rw [hf] at h
      simp at h
      rw [h]
    | cons b m => rw [hf] at h; simp at h

/-- Helper: get_or_create_user never touches the tickets table. -/
theorem get_or_create_tickets (db : Db) (d : String) :
    (get_or_create_user db d).2.tickets = db.tickets := by
  unfold get_or_create_user
  cases db.users.find? (fun u => u.discord_id == d) <;> rfl

/-- Helper: the ticket table written by the creation tail. -/
theorem createTicketTail_tickets (w : World) (uid0 now : Nat) :
    (createTicketTail w uid0 now).2.db.tickets =
      w.db.tickets ++ [⟨w.db.nextTicketId, w.nextChannelId, uid0, now, none, none⟩] := rfl

/-- Helper: live count after the creation tail. -/
theorem createTicketTail_liveCount (w : World) (uid0 now uid : Nat) :
    liveCount (createTicketTail w uid0 now).2.db.tickets uid =
      liveCount w.db.tickets uid + (if uid0 = uid then 1 else 0) := by
  rw [createTicketTail_tickets, liveCount_append]
  by_cases he : uid0 = uid <;> simp [liveTicket, nonClosedFor, he]

/-- Helper: create_ticket preserves the one-live-ticket bound. -/
theorem create_ticket_preserves (w : World) (d : String) (now : Nat)
    (h : AtMostOneLive w) : AtMostOneLive (create_ticket w d now).2 := by
  intro uid
  have htick := get_or_create_tickets w.db d
  have hbase : liveCount (get_or_create_user w.db d).2.tickets uid ≤ 1 := by
    rw [htick]
    exact h uid
  simp only [create_ticket]
  split
  · exact hbase
  · rename_i t hge
    split
    · exact hbase
    · rw [createTicketTail_liveCount]
      show liveCount (markDeleted (get_or_create_user w.db d).2.tickets t.id now) uid +
        (if (get_or_create_user w.db d).1.id = uid then 1 else 0) ≤ 1
      have hfilter := get_existing_some_some _ _ _ hge
      by_cases huid : (get_or_create_user w.db d).1.id = uid
      · rw [if_pos huid]
        subst huid
        rw [liveCount_mark_unique _ t _ _ hfilter]
      · rw [if_neg huid]
        have hle := liveCount_mark_le (get_or_create_user w.db d).2.tickets t.id now uid
        omega
  · rename_i hge
    rw [createTicketTail_liveCount]
    show liveCount (get_or_create_user w.db d).2.tickets uid +
      (if (get_or_create_user w.db d).1.id = uid then 1 else 0) ≤ 1
    have hfilter := get_existing_some_none _ _ hge
    by_cases huid : (get_or_create_user w.db d).1.id = uid
    · rw [if_pos huid]
      subst huid
      rw [liveCount_zero_of_no_nonClosed _ _ hfilter]
    · rw [if_neg huid]
      omega

/-- Helper: delete_ticket preserves the one-live-ticket bound. -/
theorem delete_ticket_preserves (w : World) (d : String) (f : Bool) (now : Nat)
    (h : AtMostOneLive w) : AtMostOneLive (delete_ticket w d f now).2 := by
  intro uid
  simp only [delete_ticket]
  split
  · exact h uid
  · rename_i user hfind
    split
    · exact h uid
    · exact h uid
    · rename_i t hge
      split
      · split
        · exact h uid
        · show liveCount (markDeleted w.db.tickets t.id now) uid ≤ 1
          exact le_trans (liveCount_mark_le _ _ _ _) (h uid)
      · show liveCount (markDeleted w.db.tickets t.id now) uid ≤ 1
        exact le_trans (liveCount_mark_le _ _ _ _) (h uid)

/-- Helper: one system step preserves the one-live-ticket bound. -/
theorem stepOp_preserves (w : World) (op : Op) (h : AtMostOneLive w) :
    AtMostOneLive (stepOp w op) := by
  cases op with
  | opCreate d now => exact create_ticket_preserves w d now h
  | opDelete d f now => exact delete_ticket_preserves w d f now h
  | opConfirm g uid pid img grant now =>
    intro u
    show liveCount (confirm_payment_contract g w.db uid pid img grant now).2.tickets u ≤ 1
    rcases confirm_contract_cases g w.db uid pid img grant now with
      ⟨heq, _⟩ | ⟨i, oid, _, _, _, _, heq⟩
    · rw [heq]
      exact h u
    · rw [heq]
      show liveCount w.db.tickets u ≤ 1
      exact h u

/-- Helper: every state reachable from the empty deployment keeps at most one
live ticket per user. -/
theorem runOps_atMostOneLive (ops : List Op) : AtMostOneLive (runOps ops) := by
  have hgen : ∀ (l : List Op) (w : World),
      AtMostOneLive w → AtMostOneLive (l.foldl stepOp w) := by
    intro l
    induction l with
    | nil => exact fun w hw => hw
    | cons op rest ih => exact fun w hw => ih (stepOp w op) (stepOp_preserves w op hw)
  exact hgen ops initialWorld (fun uid => by simp [initialWorld, liveCount])

/-- Claim C3. In every state reachable through ticket creation, ticket
deletion and payment confirmation, each user owns at most one live ticket
(closed_at and deleted_at both null), and repeated requests never create a
duplicate live ticket; but the idempotent already-open answer fails on the
code: after create, delete, create, the user holds exactly one live ticket
whose channel is reachable, yet a further create_ticket call returns the
error outcome (get_existing_ticket omits the deleted_at filter, so
scalar_one_or_none raises MultipleResultsFound over the two non-closed rows)
instead of the already-open signal, and changes nothing. -/
theorem C3_one_live_ticket_invariant :
    (∀ ops : List Op, AtMostOneLive (runOps ops)) ∧
    create_ticket (runOps opsBrick) "u" 3 = (.dbError, runOps opsBrick) ∧
    liveCount (runOps opsBrick).db.tickets 1 = 1 ∧
    ((runOps opsBrick).db.tickets.filter (liveTicket 1)).map (fun t => t.channel_id) =
      [2] ∧
    (runOps opsBrick).channels.contains 2 = true :=
  ⟨runOps_atMostOneLive, by decide, by decide, by decide, by decide⟩
